import Mathlib

/-
Verification of the QualityHub AI service core (apps/ai-service) against its
natural-language specification.

The development shallowly embeds the Python source:

* decoded JSON values (the result of json.loads) are modelled by the
  inductive type PyJson; json.loads itself is Python's standard library, so
  functions that consume raw text are parameterized by an abstract
  loads : String -> Except PyErr PyJson at the stdlib boundary;
* Python exceptions relevant to the services are modelled by PyErr, whose
  constructors track the concrete Python classes so that the services'
  except-clause dispatch (which is sensitive to the class hierarchy:
  json.JSONDecodeError and pydantic ValidationError are both subclasses of
  ValueError) can be reproduced;
* pydantic models are modelled as structures holding exactly the fields the
  model class declares; pydantic's default behaviour of silently discarding
  unknown constructor keyword arguments is reproduced by mk-functions that
  take (and drop) the extra arguments, exactly as BDDScenario(tags=...) and
  BDDGenerationResponse(metadata=...) do at runtime;
* floats (temperatures) are modelled as rationals: the code only compares,
  clamps with max/min, and tests Python truthiness (x == 0.0), all of which
  are exact on the values involved;
* async functions are pure in the embedded fragment: the single await point
  (the vendor call) is passed in as an argument of type
  Except PyErr LLMResponse.
-/

/-- Decoded JSON values as produced by Python json.loads: None, bool, int,
str, list, dict (association list preserving insertion order; json.loads
collapses duplicate keys, so the lists arising at the stdlib boundary have
unique keys). Float literals do not occur in any claim and are omitted. -/
inductive PyJson where
  | null : PyJson
  | bool (b : Bool) : PyJson
  | num (n : Int) : PyJson
  | str (s : String) : PyJson
  | arr (xs : List PyJson) : PyJson
  | obj (kvs : List (String × PyJson)) : PyJson

/-- Python exceptions distinguished by the services' except clauses.
LLMClientError is the adapter-layer base class (llm_client.py);
jsonDecodeError models json.JSONDecodeError and validationError models
pydantic.ValidationError, both of which are subclasses of ValueError in
Python; valueError models a directly raised ValueError; typeError,
attributeError, keyError and otherError cover the remaining classes that
the generic except Exception clause catches. The payload is str(e). -/
inductive PyErr where
  | llmClientError (msg : String) : PyErr
  | jsonDecodeError (msg : String) : PyErr
  | validationError (msg : String) : PyErr
  | valueError (msg : String) : PyErr
  | typeError (msg : String) : PyErr
  | attributeError (msg : String) : PyErr
  | keyError (msg : String) : PyErr
  | otherError (msg : String) : PyErr
deriving Repr, DecidableEq

/-- The str() text of an exception, as interpolated by f-strings. -/
def PyErr.text : PyErr → String
  | .llmClientError m => m
  | .jsonDecodeError m => m
  | .validationError m => m
  | .valueError m => m
  | .typeError m => m
  | .attributeError m => m
  | .keyError m => m
  | .otherError m => m

/-- Whitespace as stripped by Python str.strip() (ASCII fragment). -/
def pyIsSpace (c : Char) : Bool :=
  c = ' ' ∨ c = '\t' ∨ c = '\n' ∨ c = '\r'

/-- Python str.strip() on the character list. -/
def charStrip (cs : List Char) : List Char :=
  ((cs.dropWhile pyIsSpace).reverse.dropWhile pyIsSpace).reverse

/-- Python str.strip(). -/
def pyStrip (s : String) : String :=
  ⟨charStrip s.data⟩

/-- Python str.split(sep) for a one-character separator, on character
lists: keeps empty segments and yields one segment even for empty input,
like Python. -/
def splitOnChar (sep : Char) : List Char → List (List Char)
  | [] => [[]]
  | c :: cs =>
    if c = sep then [] :: splitOnChar sep cs
    else
      match splitOnChar sep cs with
      | [] => [[c]]
      | seg :: segs => (c :: seg) :: segs

/-- Python sep.join on character-list segments. -/
def joinWithChar (sep : Char) : List (List Char) → List Char
  | [] => []
  | [seg] => seg
  | seg :: segs => seg ++ sep :: joinWithChar sep segs

/-- Python str.startswith. -/
def pyStartsWith (prefixStr s : String) : Bool :=
  prefixStr.data.isPrefixOf s.data

/-- Containment of one character list in another at any position. -/
def charIsInfixOf (needle : List Char) : List Char → Bool
  | [] => needle.isEmpty
  | c :: cs => needle.isPrefixOf (c :: cs) || charIsInfixOf needle cs

/-- Python substring membership test (needle in haystack). -/
def pyContainsSub (haystack needle : String) : Bool :=
  charIsInfixOf needle.data haystack.data

/-- The first n characters of a string: Python s[:n]. -/
def pySlice (s : String) (n : Nat) : String :=
  ⟨s.data.take n⟩

/-- Python len() of a string (character count; exact for the ASCII data in
the claims). -/
def pyLen (s : String) : Nat :=
  s.data.length

/-- Python str() of a decoded JSON scalar, as used on example-table cell
values in _format_gherkin. Containers are rendered approximately (no claim
evaluates str() on a container cell). -/
def pyStr : PyJson → String
  | .null => "None"
  | .bool true => "True"
  | .bool false => "False"
  | .num n => toString n
  | .str s => s
  | .arr _ => "[...]"
  | .obj _ => "[...]"

/-- Python dict lookup data.get(key, default): keys arising from json.loads
are unique, first match. -/
def dictGet (kvs : List (String × PyJson)) (key : String) (dflt : PyJson) : PyJson :=
  match kvs.lookup key with
  | some v => v
  | none => dflt

/-- Python dict lookup data.get(key) with default None, returned as an
Option to model absence. -/
def dictGetOpt (kvs : List (String × PyJson)) (key : String) : Option PyJson :=
  kvs.lookup key

/-- Python membership test (key in data) for the values _parse_test_case /
_parse_scenario receive: containment in a dict checks keys, in a list it
compares elements for equality (a str equals only an equal str), in a str
it is a substring test; on int/bool/None Python raises TypeError. -/
def pyContainsKey (data : PyJson) (key : String) : Except PyErr Bool :=
  match data with
  | .obj kvs => .ok (kvs.any (fun kv => kv.1 = key))
  | .arr xs => .ok (xs.any (fun x => match x with | .str s => s = key | _ => false))
  | .str s => .ok (pyContainsSub s key)
  | _ => .error (.typeError "argument of type is not iterable")

/-- Python truthiness of a decoded JSON value. -/
def pyTruthy : PyJson → Bool
  | .null => false
  | .bool b => b
  | .num n => n ≠ 0
  | .str s => s ≠ ""
  | .arr xs => !xs.isEmpty
  | .obj kvs => !kvs.isEmpty

/-- app/schemas/generation.py LLMMessage: a role-tagged message. The role
Literal is kept as a string; validated roles are system/user/assistant. -/
structure LLMMessage where
  role : String
  content : String
deriving Repr, DecidableEq

/-- app/services/llm_client.py LLMResponse: the normalized provider
response (raw_response omitted; it is a diagnostic echo no claim reads). -/
structure LLMResponse where
  content : String
  model : String
  prompt_tokens : Nat
  completion_tokens : Nat
  total_tokens : Nat
  finish_reason : Option String := none
deriving Repr, DecidableEq

/-- app/models/responses.py TestStep (pydantic): step_number carries the
Field(ge=1) bound enforced at construction by mkTestStep. -/
structure TestStep where
  step_number : Int
  action : String
  expected_result : String
deriving Repr, DecidableEq

/-- app/models/responses.py GeneratedTestCase (pydantic). priority and
test_type are Literal fields; the parser normalizes before construction. -/
structure GeneratedTestCase where
  title : String
  preconditions : Option String
  steps : List TestStep
  expected_result : String
  priority : String
  test_type : String
deriving Repr, DecidableEq

/-- app/models/responses.py BDDScenario (pydantic). The declared fields
are exactly name, given, when, then, examples (source lines 56-66); the
class declares NO tags field. Source field names given/when/then are
keywords in Lean and are suffixed with Steps here. An examples row models
a Dict of column name to cell value, preserving insertion order. -/
structure BDDScenario where
  name : String
  givenSteps : List String
  whenSteps : List String
  thenSteps : List String
  examples : Option (List (List (String × PyJson)))

/-- Constructing BDDScenario(name=..., given=..., when=..., then=...,
examples=..., tags=...) as bdd_generator.py does: pydantic BaseModel
ignores unknown keyword arguments by default, so the tags argument is
silently discarded and the resulting object has no tags attribute. -/
def mkBDDScenario (name : String) (givenSteps whenSteps thenSteps : List String)
    (examples : Option (List (List (String × PyJson))))
    (_tags : Option PyJson) : BDDScenario :=
  { name := name
    givenSteps := givenSteps
    whenSteps := whenSteps
    thenSteps := thenSteps
    examples := examples }

/-- Result of Python hasattr(scenario, "tags") in _format_gherkin:
BDDScenario declares no tags field and pydantic discarded the constructor
argument, so the attribute never exists on any instance. -/
def bddScenarioHasAttrTags (_scenario : BDDScenario) : Bool :=
  false

/-- The tags attribute read in the (dead) tags branch of _format_gherkin:
unreachable, since bddScenarioHasAttrTags is always false. -/
def bddScenarioGetAttrTags (_scenario : BDDScenario) : List String :=
  []

/-- The metadata dict literal assembled by TestGenerator (test_generator.py
lines 178-186 and 346-354): Dict with exactly these keys. -/
structure TestGenMetadata where
  provider : String
  model : String
  test_type : String
  description_length : Nat
  prompt_tokens : Nat
  completion_tokens : Nat
  total_tokens : Nat
deriving Repr, DecidableEq

/-- app/models/responses.py TestGenerationResponse: test_cases plus a
metadata dict (this model DOES declare metadata). -/
structure TestGenerationResponse where
  test_cases : List GeneratedTestCase
  metadata : TestGenMetadata
deriving Repr, DecidableEq

/-- The metadata dict literal assembled by BDDGenerator (bdd_generator.py
lines 194-202 and 463-471). -/
structure BDDGenMetadata where
  provider : String
  model : String
  scenario_focus : String
  description_length : Nat
  prompt_tokens : Nat
  completion_tokens : Nat
  total_tokens : Nat
deriving Repr, DecidableEq

/-- app/models/responses.py BDDGenerationResponse: the declared fields are
exactly feature_name, feature_description, scenarios, gherkin (source
lines 69-75); the class declares NO metadata field. -/
structure BDDGenerationResponse where
  feature_name : String
  feature_description : String
  scenarios : List BDDScenario
  gherkin : String

/-- Constructing BDDGenerationResponse(feature_name=..., ..., gherkin=...,
metadata=...) as bdd_generator.py does at lines 189-203 and 458-472:
pydantic ignores the unknown metadata keyword argument, so the assembled
response carries no metadata. -/
def mkBDDGenerationResponse (feature_name feature_description : String)
    (scenarios : List BDDScenario) (gherkin : String)
    (_metadata : BDDGenMetadata) : BDDGenerationResponse :=
  { feature_name := feature_name
    feature_description := feature_description
    scenarios := scenarios
    gherkin := gherkin }

/-- Python (a or b) on floats, as used for temperature resolution:
0.0 is falsy (so is -0.0, which equals 0 as a rational); any other float
is truthy. -/
def pyOrRat (a b : ℚ) : ℚ :=
  if a = 0 then b else a

/-- Python (a or b) on ints, as used for max-token resolution: 0 is
falsy. -/
def pyOrNat (a b : ℕ) : ℕ :=
  if a = 0 then b else a

/-- Python (a or b) where a is an Optional[str]: None and the empty string
are falsy. -/
def pyOrStr (a : Option String) (b : String) : String :=
  match a with
  | some s => if s = "" then b else s
  | none => b

/-- llm_client.py BaseLLMClient._validate_temperature (lines 163-172):
clamp into the OpenAI-legal range 0.0 to 2.0. -/
def baseValidateTemperature (temperature : ℚ) : ℚ :=
  max 0 (min 2 temperature)

/-- OpenAIClient inherits _validate_temperature from BaseLLMClient (no
override in the class body). -/
def openaiValidateTemperature (temperature : ℚ) : ℚ :=
  baseValidateTemperature temperature

/-- llm_client.py AnthropicClient._validate_temperature (lines 417-428):
clamp into the Anthropic-legal range 0.0 to 1.0. -/
def anthropicValidateTemperature (temperature : ℚ) : ℚ :=
  max 0 (min 1 temperature)

/-- llm_client.py AnthropicClient._extract_system_message (lines 430-452):
one pass over the messages, recording the content of EVERY message with
role system into the same variable (so later system messages overwrite
earlier ones) and appending every other message to the remaining list. -/
def extractSystemMessage (messages : List LLMMessage) :
    Option String × List LLMMessage :=
  messages.foldl
    (fun acc msg =>
      if msg.role = "system" then (some msg.content, acc.2)
      else (acc.1, acc.2 ++ [msg]))
    (none, [])

/-- The temperature sent by OpenAIClient.complete (line 283):
self._validate_temperature(prompt.temperature or self.temperature). -/
def openaiCompleteTemperature (promptTemperature selfTemperature : ℚ) : ℚ :=
  openaiValidateTemperature (pyOrRat promptTemperature selfTemperature)

/-- The temperature sent by AnthropicClient.complete (line 499):
self._validate_temperature(prompt.temperature or self.temperature). -/
def anthropicCompleteTemperature (promptTemperature selfTemperature : ℚ) : ℚ :=
  anthropicValidateTemperature (pyOrRat promptTemperature selfTemperature)

/-- The max_tokens sent by both adapters' complete (lines 284 and 500):
prompt.max_tokens or self.max_tokens. -/
def completeMaxTokens (promptMaxTokens selfMaxTokens : ℕ) : ℕ :=
  pyOrNat promptMaxTokens selfMaxTokens

/-- The per-provider numeric settings fields read during client
construction (app/core/config.py). -/
structure ProviderSettings where
  temperature : ℚ
  max_tokens : ℕ

/-- The temperature stored by OpenAIClient.__init__ (line 203) and
AnthropicClient.__init__ (line 380): temperature or settings default
(both constructors use the same falsy-or pattern). -/
def clientInitTemperature (argTemperature : ℚ) (settings : ProviderSettings) : ℚ :=
  pyOrRat argTemperature settings.temperature

/-- The max_tokens stored by the adapters' __init__ (lines 204 and 381):
max_tokens or settings default. -/
def clientInitMaxTokens (argMaxTokens : ℕ) (settings : ProviderSettings) : ℕ :=
  pyOrNat argMaxTokens settings.max_tokens

/-- Python iteration (for item in value) over a decoded JSON value, as the
services do over step lists and scenario lists: a list yields its
elements, a dict yields its keys, a str yields its one-character
substrings; int/bool/None raise TypeError. -/
def pyIter : PyJson → Except PyErr (List PyJson)
  | .arr xs => .ok xs
  | .obj kvs => .ok (kvs.map (fun kv => PyJson.str kv.1))
  | .str s => .ok (s.data.map (fun c => PyJson.str ⟨[c]⟩))
  | _ => .error (.typeError "object is not iterable")

/-- The accumulate-or-propagate loop shape shared by the services (for
item in ...: results.append(parse(item))): the first exception aborts the
loop. -/
def mapMExcept (f : α → Except PyErr β) : List α → Except PyErr (List β)
  | [] => .ok []
  | a :: rest => do
    let b ← f a
    let bs ← mapMExcept f rest
    pure (b :: bs)

/-- The shared fenced-code-block stripping of both services'
_parse_response (test_generator.py lines 246-254, bdd_generator.py lines
264-272): strip, and when the text starts with a triple backtick, split
on newlines and discard the first and last line. -/
def stripCodeFence (content : String) : String :=
  let content := pyStrip content
  if pyStartsWith "```" content then
    ⟨joinWithChar '\n' ((splitOnChar '\n' content.data).drop 1).dropLast⟩
  else content

/-- Pydantic construction TestStep(step_number=..., action=...,
expected_result=...): step_number must be an int with ge=1, action and
expected_result must be str; anything else raises ValidationError (a
ValueError subclass). -/
def mkTestStep (step_number action expected_result : PyJson) :
    Except PyErr TestStep :=
  match step_number, action, expected_result with
  | .num n, .str a, .str e =>
    if 1 ≤ n then
      .ok { step_number := n, action := a, expected_result := e }
    else .error (.validationError "step_number: input should be greater than or equal to 1")
  | _, _, _ => .error (.validationError "TestStep: input should be a valid type")

/-- One iteration of the step loop in _parse_test_case (test_generator.py
lines 289-295): step_data.get with defaults (the 1-based position i for
step_number, empty strings otherwise), then TestStep construction. A
non-dict step raises AttributeError at the .get call. -/
def parseStep (i : Nat) : PyJson → Except PyErr TestStep
  | .obj kvs =>
    mkTestStep (dictGet kvs "step_number" (.num i))
      (dictGet kvs "action" (.str ""))
      (dictGet kvs "expected_result" (.str ""))
  | _ => .error (.attributeError "object has no attribute get")

/-- The enumerate(data.get("steps", []), start=1) loop of
_parse_test_case. -/
def parseStepsFrom (i : Nat) : List PyJson → Except PyErr (List TestStep)
  | [] => .ok []
  | s :: rest => do
    let step ← parseStep i s
    let steps ← parseStepsFrom (i + 1) rest
    pure (step :: steps)

/-- Pydantic construction GeneratedTestCase(...) at test_generator.py
lines 307-314: title and expected_result must be str, preconditions must
be absent, None or str; priority and test_type were normalized by the
caller and always validate. -/
def mkGeneratedTestCase (title : PyJson) (preconditions : Option PyJson)
    (steps : List TestStep) (expected_result : PyJson)
    (priority test_type : String) : Except PyErr GeneratedTestCase := do
  let titleStr ← match title with
    | .str s => pure s
    | _ => Except.error (.validationError "title: input should be a valid string")
  let preconditionsStr ← match preconditions with
    | none => pure none
    | some .null => pure none
    | some (.str s) => pure (some s)
    | some _ => Except.error (.validationError "preconditions: input should be a valid string")
  let expectedStr ← match expected_result with
    | .str s => pure s
    | _ => Except.error (.validationError "expected_result: input should be a valid string")
  pure { title := titleStr
         preconditions := preconditionsStr
         steps := steps
         expected_result := expectedStr
         priority := priority
         test_type := test_type }

/-- The priority normalization of _parse_test_case (lines 297-300): keep
an allowed enum member, coerce anything else (a non-member string or a
non-string value, for which the Python membership test is simply false)
to medium. -/
def normalizePriority (j : PyJson) : String :=
  match j with
  | .str p =>
    if p = "critical" ∨ p = "high" ∨ p = "medium" ∨ p = "low" then p
    else "medium"
  | _ => "medium"

/-- The test_type normalization of _parse_test_case (lines 302-305):
keep an allowed enum member, coerce anything else to functional. -/
def normalizeTestType (j : PyJson) : String :=
  match j with
  | .str t =>
    if t = "functional" ∨ t = "edge_case" ∨ t = "negative" then t
    else "functional"
  | _ => "functional"

/-- test_generator.py TestGenerator._parse_test_case (lines 273-314):
requires a title key (ValueError naming the field otherwise), parses the
steps with 1-based default numbering, normalizes priority (default
medium) and test_type (default functional) to their allowed enum members,
then constructs the pydantic object. -/
def parseTestCase (data : PyJson) : Except PyErr GeneratedTestCase := do
  let hasTitle ← pyContainsKey data "title"
  if !hasTitle then
    Except.error (.valueError "Test case missing required field: title")
  else
    match data with
    | .obj kvs => do
      let stepsJson ← pyIter (dictGet kvs "steps" (.arr []))
      let steps ← parseStepsFrom 1 stepsJson
      let priority := normalizePriority (dictGet kvs "priority" (.str "medium"))
      let test_type :=
        normalizeTestType (dictGet kvs "test_type" (.str "functional"))
      mkGeneratedTestCase (dictGet kvs "title" .null)
        (dictGetOpt kvs "preconditions") steps
        (dictGet kvs "expected_result" (.str ""))
        priority test_type
    | _ => Except.error (.attributeError "object has no attribute get")

/-- The envelope handling of TestGenerator._parse_response after
json.loads (lines 256-271): a dict must carry the test_cases key, the
payload (or the extracted value) must be a list, and each item is parsed
in order. -/
def parseResponseTestsDecoded (data : PyJson) :
    Except PyErr (List GeneratedTestCase) := do
  let data ← match data with
    | .obj kvs =>
      if kvs.any (fun kv => kv.1 = "test_cases") then
        pure (dictGet kvs "test_cases" .null)
      else
        Except.error (.valueError "Expected array or object with \x27test_cases\x27 key")
    | d => pure d
  match data with
  | .arr items => mapMExcept parseTestCase items
  | _ => Except.error (.valueError "Expected JSON array of test cases")

/-- test_generator.py TestGenerator._parse_response (lines 233-271),
parameterized by the standard library json.loads at the text-to-value
boundary: strip fencing, decode, handle the envelope, parse the items. -/
def parseResponseTests (loads : String → Except PyErr PyJson)
    (content : String) : Except PyErr (List GeneratedTestCase) := do
  let data ← loads (stripCodeFence content)
  parseResponseTestsDecoded data

/-- The str-to-singleton-list wrapping applied to given/when/then in
_parse_scenario (bdd_generator.py lines 318-324). -/
def wrapStr : PyJson → PyJson
  | .str s => .arr [.str s]
  | j => j

/-- Pydantic validation of a List[str] field of BDDScenario: a list whose
elements are all str; anything else raises ValidationError. -/
def toStrList : PyJson → Except PyErr (List String)
  | .arr xs =>
    mapMExcept (fun x =>
      match x with
      | .str s => Except.ok s
      | _ => Except.error (.validationError "given/when/then: input should be a valid string")) xs
  | _ => Except.error (.validationError "given/when/then: input should be a valid list")

/-- Pydantic validation of the examples field Optional[List[Dict[str,
Any]]]: every element must be a dict. -/
def toExamples (xs : List PyJson) :
    Except PyErr (List (List (String × PyJson))) :=
  mapMExcept (fun x =>
    match x with
    | .obj kvs => Except.ok kvs
    | _ => Except.error (.validationError "examples: input should be a valid dictionary")) xs

/-- bdd_generator.py BDDGenerator._parse_scenario (lines 298-338):
requires a name key (ValueError naming the field otherwise), wraps single
strings into one-element step lists, discards a present-but-not-list
examples value to None, and passes tags through to the constructor (where
pydantic drops it, BDDScenario declaring no such field). -/
def parseScenario (data : PyJson) : Except PyErr BDDScenario := do
  let hasName ← pyContainsKey data "name"
  if !hasName then
    Except.error (.valueError "Scenario missing required field: name")
  else
    match data with
    | .obj kvs => do
      let givenSteps ← toStrList (wrapStr (dictGet kvs "given" (.arr [])))
      let whenSteps ← toStrList (wrapStr (dictGet kvs "when" (.arr [])))
      let thenSteps ← toStrList (wrapStr (dictGet kvs "then" (.arr [])))
      let examples ← match dictGetOpt kvs "examples" with
        | some (.arr xs) => (toExamples xs).map some
        | _ => pure none
      let name ← match dictGet kvs "name" .null with
        | .str s => pure s
        | _ => Except.error (.validationError "name: input should be a valid string")
      pure (mkBDDScenario name givenSteps whenSteps thenSteps examples
        (dictGetOpt kvs "tags"))
    | _ => Except.error (.attributeError "object has no attribute get")

/-- The parsed result of BDDGenerator._parse_response: the scenarios list
plus the optional feature_name and background of a dict envelope. -/
structure ParsedBDD where
  scenarios : List BDDScenario
  feature_name : Option PyJson
  background : Option PyJson

/-- The envelope handling of BDDGenerator._parse_response after json.loads
(lines 274-296): a bare list is the scenario list itself; a dict must
carry the scenarios key and may carry feature_name and background; any
other value is rejected. -/
def parseResponseBDDDecoded (data : PyJson) : Except PyErr ParsedBDD := do
  let pair ← match data with
    | .arr xs => pure (PyJson.arr xs, (none : Option PyJson))
    | .obj kvs =>
      if kvs.any (fun kv => kv.1 = "scenarios") then
        pure (dictGet kvs "scenarios" .null, dictGetOpt kvs "feature_name")
      else
        Except.error (.valueError "Expected array or object with \x27scenarios\x27 key")
    | _ => Except.error (.valueError "Expected JSON array or object")
  let items ← pyIter pair.1
  let scenarios ← mapMExcept parseScenario items
  pure { scenarios := scenarios
         feature_name := pair.2
         background := match data with
           | .obj kvs => dictGetOpt kvs "background"
           | _ => none }

/-- bdd_generator.py BDDGenerator._parse_response (lines 251-296),
parameterized by json.loads like the test-case parser. -/
def parseResponseBDD (loads : String → Except PyErr PyJson)
    (content : String) : Except PyErr ParsedBDD := do
  let data ← loads (stripCodeFence content)
  parseResponseBDDDecoded data

/-- bdd_generator.py BDDGenerator._extract_feature_name (lines 340-353):
first sentence (text before the first period), stripped; truncated to 47
characters plus an ellipsis when longer than 50. -/
def extractFeatureName (description : String) : String :=
  let first_sentence := pyStrip ⟨(splitOnChar '.' description.data).headD []⟩
  if pyLen first_sentence > 50 then pySlice first_sentence 47 ++ "..."
  else first_sentence

/-- Python truthiness of the examples field as tested by
(if scenario.examples:) in _format_gherkin: None and the empty list are
falsy. -/
def examplesTruthy : Option (List (List (String × PyJson))) → Bool
  | some xs => !xs.isEmpty
  | none => false

/-- The per-category step lines of _format_gherkin (lines 391-404): the
first step of a category takes its keyword, later steps take And. -/
def gherkinStepLines (keyword : String) (steps : List String) : List String :=
  steps.enum.map (fun p =>
    "    " ++ (if p.1 = 0 then keyword else "And") ++ " " ++ p.2)

/-- Python example[k]: KeyError when a row lacks a column of the header
row. -/
def rowGetCell (row : List (String × PyJson)) (k : String) :
    Except PyErr PyJson :=
  match row.lookup k with
  | some v => Except.ok v
  | none => Except.error (.keyError k)

/-- The Examples block of _format_gherkin (lines 407-416): a blank line,
the Examples: heading, a pipe-delimited header row listing the first
example row\x27s keys in their original order, then each example row\x27s
values in that same key order, str()-rendered. -/
def exampleTableLines (examples : List (List (String × PyJson))) :
    Except PyErr (List String) :=
  match examples with
  | [] => .ok []
  | first :: _ => do
    let keys := first.map Prod.fst
    let rows ← mapMExcept (fun ex => do
      let cells ← mapMExcept (fun k => (rowGetCell ex k).map pyStr) keys
      pure ("      | " ++ String.intercalate " | " cells ++ " |")) examples
    pure (["", "    Examples:",
      "      | " ++ String.intercalate " | " keys ++ " |"] ++ rows)

/-- The per-scenario lines of _format_gherkin (lines 379-418): the tags
branch tests include_tags and hasattr(scenario, "tags") and scenario.tags
(the hasattr test is always false, BDDScenario declaring no tags field);
a truthy examples list selects the Scenario Outline heading and appends
the Examples block; a trailing blank line closes the block. -/
def gherkinScenarioLines (include_tags : Bool) (scenario : BDDScenario) :
    Except PyErr (List String) := do
  let tagLines :=
    if include_tags ∧ bddScenarioHasAttrTags scenario
        ∧ !(bddScenarioGetAttrTags scenario).isEmpty then
      ["  " ++ String.intercalate " " (bddScenarioGetAttrTags scenario)]
    else []
  let heading :=
    if examplesTruthy scenario.examples then
      "  Scenario Outline: " ++ scenario.name
    else
      "  Scenario: " ++ scenario.name
  let exampleLines ←
    if examplesTruthy scenario.examples then
      exampleTableLines (scenario.examples.getD [])
    else pure []
  pure (tagLines ++ [heading]
    ++ gherkinStepLines "Given" scenario.givenSteps
    ++ gherkinStepLines "When" scenario.whenSteps
    ++ gherkinStepLines "Then" scenario.thenSteps
    ++ exampleLines ++ [""])

/-- bdd_generator.py BDDGenerator._format_gherkin (lines 355-420): the
feature heading and description, then each scenario\x27s block, joined
with newlines. A KeyError escapes when an example row lacks a header
column. -/
def formatGherkin (feature_name feature_description : String)
    (scenarios : List BDDScenario) (include_tags : Bool) :
    Except PyErr String := do
  let blocks ← mapMExcept (gherkinScenarioLines include_tags) scenarios
  pure (String.intercalate "\n"
    (["Feature: " ++ feature_name, "  " ++ feature_description, ""]
      ++ blocks.flatten))

/-- The error mapping of TestGenerator.generate_tests (test_generator.py
lines 189-201): LLMClientError and json.JSONDecodeError have dedicated
clauses; every other exception, ValueError included (the method has no
except ValueError clause), falls to the generic wrap. -/
def testGenErrorMessage : PyErr → String
  | .llmClientError m => "AI provider error: " ++ m
  | .jsonDecodeError m => "Failed to parse AI response: " ++ m
  | e => "Test generation failed: " ++ e.text

/-- The error mapping of BDDGenerator.generate_scenarios (bdd_generator.py
lines 205-220): LLMClientError, json.JSONDecodeError and ValueError have
dedicated clauses, in that order; pydantic ValidationError is a ValueError
subclass and is caught by the ValueError clause; everything else falls to
the generic wrap. -/
def bddGenErrorMessage : PyErr → String
  | .llmClientError m => "AI provider error: " ++ m
  | .jsonDecodeError m => "Failed to parse AI response: " ++ m
  | .validationError m => "Invalid response format: " ++ m
  | .valueError m => "Invalid response format: " ++ m
  | e => "BDD generation failed: " ++ e.text

/-- A generation outcome: wrapped carries the message of the
TestGenerationError / BDDGenerationError raised by the except clauses of
the AI path; raw carries an exception propagating outside a try block
(only reachable from the mock path, which runs before the try). -/
inductive GenFailure where
  | wrapped (msg : String) : GenFailure
  | raw (e : PyErr) : GenFailure
deriving Repr, DecidableEq

/-- test_generator.py TestGenerator._generate_mock_tests (lines 357-455):
up to three fixed test cases gated by the requested type and the running
count against max_tests; the title embeds the first 50 characters of the
description; default_priority is (priority or "medium"). -/
def mockTests (description : String) (test_type : String) (max_tests : Nat)
    (priority : Option String) : List GeneratedTestCase :=
  let default_priority := pyOrStr priority "medium"
  let tests : List GeneratedTestCase := []
  let tests :=
    if (test_type = "functional" ∨ test_type = "all")
        ∧ tests.length < max_tests then
      tests ++ [{ title := "Verify basic functionality - " ++ pySlice description 50
                  preconditions := some "User is logged in and has appropriate permissions"
                  steps := [
                    { step_number := 1, action := "Navigate to the feature",
                      expected_result := "Feature page is displayed" },
                    { step_number := 2, action := "Perform the main action",
                      expected_result := "Action is completed successfully" },
                    { step_number := 3, action := "Verify the result",
                      expected_result := "Expected outcome is achieved" }]
                  expected_result := "Feature works as described"
                  priority := default_priority
                  test_type := "functional" }]
    else tests
  let tests :=
    if (test_type = "edge_case" ∨ test_type = "all")
        ∧ tests.length < max_tests then
      tests ++ [{ title := "Verify edge case handling - " ++ pySlice description 50
                  preconditions := some "System is in a boundary condition state"
                  steps := [
                    { step_number := 1, action := "Set up boundary condition",
                      expected_result := "System accepts boundary values" },
                    { step_number := 2, action := "Execute feature at boundary",
                      expected_result := "Feature handles edge case correctly" }]
                  expected_result := "Edge cases are handled gracefully"
                  priority := default_priority
                  test_type := "edge_case" }]
    else tests
  let tests :=
    if (test_type = "negative" ∨ test_type = "all")
        ∧ tests.length < max_tests then
      tests ++ [{ title := "Verify error handling - " ++ pySlice description 50
                  preconditions := some "System is ready to receive invalid input"
                  steps := [
                    { step_number := 1, action := "Provide invalid input",
                      expected_result := "System validates input" },
                    { step_number := 2, action := "Verify error message",
                      expected_result := "Appropriate error message is displayed" }]
                  expected_result := "Errors are handled gracefully with clear messages"
                  priority := default_priority
                  test_type := "negative" }]
    else tests
  tests

/-- test_generator.py TestGenerator._generate_mock_response (lines
316-355): mock test cases plus the metadata dict with model "mock" and
zero token counts. -/
def mockResponseTests (provider description : String) (test_type : String)
    (max_tests : Nat) (priority : Option String) : TestGenerationResponse :=
  { test_cases := mockTests description test_type max_tests priority
    metadata := { provider := provider
                  model := "mock"
                  test_type := test_type
                  description_length := pyLen description
                  prompt_tokens := 0
                  completion_tokens := 0
                  total_tokens := 0 } }

/-- The try-block body of TestGenerator.generate_tests on the AI path
(lines 142-187): invoke the client (modelled by the llm argument), parse
the reply, filter when a single test type is requested, truncate to
max_tests, and assemble the response with its metadata dict. -/
def generateTestsAI (loads : String → Except PyErr PyJson)
    (provider : String) (llm : Except PyErr LLMResponse)
    (description : String) (test_type : String) (max_tests : Nat) :
    Except PyErr TestGenerationResponse := do
  let response ← llm
  let test_cases ← parseResponseTests loads response.content
  let test_cases :=
    if test_type ≠ "all" then
      test_cases.filter (fun tc => tc.test_type = test_type)
    else test_cases
  let test_cases := test_cases.take max_tests
  pure { test_cases := test_cases
         metadata := { provider := provider
                       model := response.model
                       test_type := test_type
                       description_length := pyLen description
                       prompt_tokens := response.prompt_tokens
                       completion_tokens := response.completion_tokens
                       total_tokens := response.total_tokens } }

/-- test_generator.py TestGenerator.generate_tests (lines 86-201): the
mock path returns before the try block when use_ai is false; the AI path
wraps every exception through the except clauses into a
TestGenerationError message. -/
def generateTests (loads : String → Except PyErr PyJson)
    (provider : String) (use_ai : Bool) (llm : Except PyErr LLMResponse)
    (description : String) (test_type : String) (max_tests : Nat)
    (priority : Option String) : Except GenFailure TestGenerationResponse :=
  if !use_ai then
    .ok (mockResponseTests provider description test_type max_tests priority)
  else
    match generateTestsAI loads provider llm description test_type max_tests with
    | .ok r => .ok r
    | .error e => .error (.wrapped (testGenErrorMessage e))

/-- bdd_generator.py BDDGenerator._generate_mock_scenarios (lines
474-549): up to three fixed scenarios gated by the running count; tags
are passed to the BDDScenario constructor (and dropped there), examples
appear on the second scenario when requested. -/
def mockScenariosBDD (max_scenarios : Nat)
    (include_examples include_tags : Bool) : List BDDScenario :=
  let scenarios : List BDDScenario := []
  let scenarios :=
    if scenarios.length < max_scenarios then
      scenarios ++ [mkBDDScenario "Successfully complete the main flow"
        ["the user is logged in", "the user has required permissions"]
        ["the user performs the main action"]
        ["the action is completed successfully",
          "the user sees a success message"]
        none
        (if include_tags then
          some (.arr [.str "@smoke", .str "@happy-path"]) else none)]
    else scenarios
  let scenarios :=
    if scenarios.length < max_scenarios then
      let examples :=
        if include_examples then
          some [[("input", PyJson.str "valid_value"), ("result", PyJson.str "success")],
            [("input", PyJson.str "invalid_value"), ("result", PyJson.str "error")],
            [("input", PyJson.str "empty"), ("result", PyJson.str "error")]]
        else none
      scenarios ++ [mkBDDScenario "Validate input data"
        ["the user is on the input form"]
        ["the user enters <input>", "the user submits the form"]
        ["the system shows <result>"]
        examples
        (if include_tags then
          some (.arr [.str "@validation", .str "@regression"]) else none)]
    else scenarios
  let scenarios :=
    if scenarios.length < max_scenarios then
      scenarios ++ [mkBDDScenario "Handle error conditions gracefully"
        ["the system is in an error state"]
        ["the user attempts to perform an action"]
        ["the user sees an appropriate error message",
          "the user can recover from the error"]
        none
        (if include_tags then
          some (.arr [.str "@error-handling", .str "@regression"]) else none)]
    else scenarios
  scenarios

/-- bdd_generator.py BDDGenerator._generate_mock_response (lines 422-472):
extract the feature name, build the mock scenarios, render the Gherkin,
and construct the response (whose metadata keyword argument pydantic
drops). This runs outside the try block, so its exceptions (none are
reachable) would propagate raw. -/
def mockResponseBDD (provider feature_description : String)
    (max_scenarios : Nat) (include_examples include_tags : Bool) :
    Except PyErr BDDGenerationResponse := do
  let feature_name := extractFeatureName feature_description
  let scenarios := mockScenariosBDD max_scenarios include_examples include_tags
  let gherkin ← formatGherkin feature_name feature_description scenarios
    include_tags
  pure (mkBDDGenerationResponse feature_name feature_description scenarios
    gherkin
    { provider := provider
      model := "mock"
      scenario_focus := "comprehensive"
      description_length := pyLen feature_description
      prompt_tokens := 0
      completion_tokens := 0
      total_tokens := 0 })

/-- The try-block body of BDDGenerator.generate_scenarios on the AI path
(lines 147-203): invoke the client, parse the reply, resolve the feature
name ((parsed or extracted), f-string rendered into the Gherkin heading,
then validated as a str by the response model), truncate the scenario
list, render the Gherkin, and construct the response (whose metadata
keyword argument pydantic drops). -/
def generateScenariosAI (loads : String → Except PyErr PyJson)
    (provider : String) (llm : Except PyErr LLMResponse)
    (feature_description : String) (scenario_focus : String)
    (max_scenarios : Nat) (include_tags : Bool) :
    Except PyErr BDDGenerationResponse := do
  let response ← llm
  let parsed ← parseResponseBDD loads response.content
  let featureNameJson : PyJson :=
    match parsed.feature_name with
    | some j =>
      if pyTruthy j then j else .str (extractFeatureName feature_description)
    | none => .str (extractFeatureName feature_description)
  let scenarios := parsed.scenarios.take max_scenarios
  let gherkin ← formatGherkin (pyStr featureNameJson) feature_description
    scenarios include_tags
  let feature_name ← match featureNameJson with
    | .str s => pure s
    | _ => Except.error (.validationError "feature_name: input should be a valid string")
  pure (mkBDDGenerationResponse feature_name feature_description scenarios
    gherkin
    { provider := provider
      model := response.model
      scenario_focus := scenario_focus
      description_length := pyLen feature_description
      prompt_tokens := response.prompt_tokens
      completion_tokens := response.completion_tokens
      total_tokens := response.total_tokens })

/-- bdd_generator.py BDDGenerator.generate_scenarios (lines 86-220): the
mock path returns before the try block when use_ai is false; the AI path
wraps every exception through the except clauses into a
BDDGenerationError message. -/
def generateScenarios (loads : String → Except PyErr PyJson)
    (provider : String) (use_ai : Bool) (llm : Except PyErr LLMResponse)
    (feature_description : String) (scenario_focus : String)
    (max_scenarios : Nat) (include_examples include_tags : Bool) :
    Except GenFailure BDDGenerationResponse :=
  if !use_ai then
    match mockResponseBDD provider feature_description max_scenarios
        include_examples include_tags with
    | .ok r => .ok r
    | .error e => .error (.raw e)
  else
    match generateScenariosAI loads provider llm feature_description
        scenario_focus max_scenarios include_tags with
    | .ok r => .ok r
    | .error e => .error (.wrapped (bddGenErrorMessage e))

/-- Statement ingredient for the round-trip claim: a step item already in
the shapes _parse_test_case accepts (a dict whose step_number, action and
expected_result, when present, are an int at least 1 resp. strings). -/
def wellFormedStepItem : PyJson → Bool
  | .obj kvs =>
    (match kvs.lookup "step_number" with
      | none => true
      | some (.num n) => 1 ≤ n
      | some _ => false)
    && (match kvs.lookup "action" with
      | none => true
      | some (.str _) => true
      | some _ => false)
    && (match kvs.lookup "expected_result" with
      | none => true
      | some (.str _) => true
      | some _ => false)
  | _ => false

/-- Statement ingredient for the round-trip claim: a test-case item with a
title field and the other fields already in the accepted shapes. -/
def wellFormedTestCaseItem : PyJson → Bool
  | .obj kvs =>
    (match kvs.lookup "title" with
      | some (.str _) => true
      | _ => false)
    && (match kvs.lookup "steps" with
      | none => true
      | some (.arr xs) => xs.all wellFormedStepItem
      | some _ => false)
    && (match kvs.lookup "preconditions" with
      | none => true
      | some .null => true
      | some (.str _) => true
      | some _ => false)
    && (match kvs.lookup "expected_result" with
      | none => true
      | some (.str _) => true
      | some _ => false)
  | _ => false

/-- The title carried by a well-formed test-case item. -/
def titleOf : PyJson → String
  | .obj kvs =>
    match kvs.lookup "title" with
    | some (.str s) => s
    | _ => ""
  | _ => ""

theorem getLast?_cons_eq_or {α : Type} (c : α) (l : List α) :
    (c :: l).getLast? = l.getLast?.or (some c) := by
  induction l generalizing c with
  | nil => rfl
  | cons d t ih =>
    rw [List.getLast?_cons_cons, ih d]
    cases h : t.getLast? <;> simp [Option.or]

theorem extract_foldl (ms : List LLMMessage) :
    ∀ a : Option String × List LLMMessage,
    ms.foldl (fun acc msg =>
        if msg.role = "system" then (some msg.content, acc.2)
        else (acc.1, acc.2 ++ [msg])) a
    = (((ms.filter (fun m => m.role = "system")).map
          LLMMessage.content).getLast?.or a.1,
        a.2 ++ ms.filter (fun m => ¬ (m.role = "system"))) := by
  induction ms with
  | nil => intro a; simp
  | cons m rest ih =>
    intro a
    by_cases h : m.role = "system"
    · rw [List.foldl_cons, if_pos h, ih,
        List.filter_cons_of_pos (by simpa using h),
        List.filter_cons_of_neg (by simpa using h),
        List.map_cons, getLast?_cons_eq_or, Option.or_assoc]
      cases hl : ((rest.filter (fun m => decide (m.role = "system"))).map
          LLMMessage.content).getLast? <;> simp [Option.or]
    · rw [List.foldl_cons, if_neg h, ih,
        List.filter_cons_of_neg (by simpa using h),
        List.filter_cons_of_pos (by simpa using h)]
      simp

/-- C4: the claim says AnthropicClient promotes the FIRST system message;
the loop in _extract_system_message overwrites the promoted content on
every system message, so at the message list [user, system "first",
system "second"] (which LLMPrompt.validate_messages_order accepts, its
check firing only when the first message is a system message) the
promoted content is that of the SECOND system message, not the first. -/
theorem C4_counterexample :
    extractSystemMessage
        [{ role := "user", content := "hello" },
          { role := "system", content := "first" },
          { role := "system", content := "second" }]
      = (some "second", [{ role := "user", content := "hello" }])
    ∧ (some "second" : Option String) ≠ some "first" := by
  exact ⟨by decide, by decide⟩

/-- C4 (amended): AnthropicClient promotes the LAST message with role
system (if any) to the top-level system field and passes the non-system
messages, in their original order, as the conversation; every system
message is removed from the message list, not only the promoted one. -/
theorem C4_system_promotion (messages : List LLMMessage) :
    (extractSystemMessage messages).1
      = ((messages.filter (fun m => m.role = "system")).map
          LLMMessage.content).getLast?
    ∧ (extractSystemMessage messages).2
      = messages.filter (fun m => ¬ (m.role = "system")) := by
  have h := extract_foldl messages (none, [])
  unfold extractSystemMessage
  rw [h]
  cases hl : ((messages.filter (fun m => m.role = "system")).map
      LLMMessage.content).getLast? <;> simp [Option.or]

/-- C5: the OpenAI adapter (inheriting BaseLLMClient._validate_temperature)
clamps a temperature to max(0.0, min(2.0, t)) and the Anthropic adapter to
max(0.0, min(1.0, t)); out-of-range inputs are clamped, never rejected:
3.0 maps to 2.0 and -1.0 to 0.0 for OpenAI, 1.5 maps to 1.0 and -0.5 to
0.0 for Anthropic. -/
theorem C5_temperature_clamping :
    (∀ t : ℚ, openaiValidateTemperature t = max 0 (min 2 t))
    ∧ (∀ t : ℚ, anthropicValidateTemperature t = max 0 (min 1 t))
    ∧ openaiValidateTemperature 3 = 2
    ∧ openaiValidateTemperature (-1) = 0
    ∧ anthropicValidateTemperature 1.5 = 1
    ∧ anthropicValidateTemperature (-0.5) = 0 := by
  refine ⟨fun t => rfl, fun t => rfl, ?_, ?_, ?_, ?_⟩ <;>
    norm_num [openaiValidateTemperature, baseValidateTemperature,
      anthropicValidateTemperature]

/-- C10: a prompt temperature of exactly 0.0 is falsy in Python, so the
resolution (prompt.temperature or self.temperature) in both adapters'
complete falls back to the client default; with a nonzero (positive)
client default the resulting clamped temperature is nonzero, so a caller
cannot obtain temperature exactly 0.0 through the prompt; the same falsy
fallback replaces constructor arguments temperature=0.0 and max_tokens=0
with the settings defaults. -/
theorem C10_zero_falsy_fallback :
    (∀ d : ℚ, d ≠ 0 → pyOrRat 0 d = d)
    ∧ (∀ d : ℚ, 0 < d → 0 < openaiCompleteTemperature 0 d)
    ∧ (∀ d : ℚ, 0 < d → 0 < anthropicCompleteTemperature 0 d)
    ∧ (∀ s : ProviderSettings, clientInitTemperature 0 s = s.temperature)
    ∧ (∀ s : ProviderSettings, clientInitMaxTokens 0 s = s.max_tokens) := by
  refine ⟨fun d _ => by simp [pyOrRat], fun d hd => ?_, fun d hd => ?_,
    fun s => by simp [clientInitTemperature, pyOrRat],
    fun s => by simp [clientInitMaxTokens, pyOrNat]⟩
  · simp only [openaiCompleteTemperature, openaiValidateTemperature,
      baseValidateTemperature, pyOrRat, if_pos rfl]
    exact lt_max_iff.mpr (Or.inr (lt_min (by norm_num) hd))
  · simp only [anthropicCompleteTemperature, anthropicValidateTemperature,
      pyOrRat, if_pos rfl]
    exact lt_max_iff.mpr (Or.inr (lt_min (by norm_num) hd))

theorem C10_zero_falsy_fallback_witness :
    pyOrRat 0 (7/10) = 7/10
    ∧ 0 < openaiCompleteTemperature 0 (7/10)
    ∧ 0 < anthropicCompleteTemperature 0 (7/10)
    ∧ clientInitTemperature 0 ⟨7/10, 4096⟩ = (7/10 : ℚ)
    ∧ clientInitMaxTokens 0 ⟨7/10, 4096⟩ = 4096 :=
  ⟨C10_zero_falsy_fallback.1 (7/10) (by norm_num),
    C10_zero_falsy_fallback.2.1 (7/10) (by norm_num),
    C10_zero_falsy_fallback.2.2.1 (7/10) (by norm_num),
    C10_zero_falsy_fallback.2.2.2.1 ⟨7/10, 4096⟩,
    C10_zero_falsy_fallback.2.2.2.2 ⟨7/10, 4096⟩⟩

theorem except_bind_ok {ε α β : Type} (a : α) (k : α → Except ε β) :
    (Except.ok a >>= k) = k a := rfl

theorem except_bind_error {ε α β : Type} (e : ε) (k : α → Except ε β) :
    ((Except.error e : Except ε α) >>= k) = Except.error e := rfl

/-- C1: the claim says BOTH services wrap a structural ValueError as a
generation error with message "Invalid response format: " plus the cause.
TestGenerator.generate_tests has no except ValueError clause, so at a
parsed payload whose first item lacks a title the raised ValueError falls
to the generic clause and the message is "Test generation failed: ..."
(and does not start with "Invalid response format: "). -/
theorem C1_counterexample :
    generateTests (fun _ => .ok (PyJson.arr [PyJson.obj []])) "openai" true
      (.ok { content := "irrelevant", model := "gpt-4",
             prompt_tokens := 1, completion_tokens := 1, total_tokens := 2 })
      "User login" "all" 5 none
      = .error (.wrapped
          "Test generation failed: Test case missing required field: title")
    ∧ pyStartsWith "Invalid response format: "
        "Test generation failed: Test case missing required field: title"
      = false := by
  exact ⟨rfl, rfl⟩

/-- C1 (amended): on the AI path, a structural ValueError raised while
parsing is wrapped by BDDGenerator.generate_scenarios into a
BDDGenerationError with message "Invalid response format: " plus the
cause, but by TestGenerator.generate_tests (which has no except
ValueError clause) into a TestGenerationError with message
"Test generation failed: " plus the cause. -/
theorem C1_structural_error_wrapping :
    (∀ (loads : String → Except PyErr PyJson) (provider : String)
        (resp : LLMResponse) (data : PyJson) (msg : String)
        (fd fs : String) (ms : Nat) (ie it : Bool),
      loads (stripCodeFence resp.content) = .ok data →
      parseResponseBDDDecoded data = .error (.valueError msg) →
      generateScenarios loads provider true (.ok resp) fd fs ms ie it
        = .error (.wrapped ("Invalid response format: " ++ msg)))
    ∧ (∀ (loads : String → Except PyErr PyJson) (provider : String)
        (resp : LLMResponse) (data : PyJson) (msg : String)
        (d tt : String) (mt : Nat) (pr : Option String),
      loads (stripCodeFence resp.content) = .ok data →
      parseResponseTestsDecoded data = .error (.valueError msg) →
      generateTests loads provider true (.ok resp) d tt mt pr
        = .error (.wrapped ("Test generation failed: " ++ msg))) := by
  constructor
  · intro loads provider resp data msg fd fs ms ie it hload hparse
    have hp : parseResponseBDD loads resp.content
        = .error (.valueError msg) := by
      unfold parseResponseBDD
      rw [hload, except_bind_ok]
      exact hparse
    have hai : generateScenariosAI loads provider (.ok resp) fd fs ms it
        = .error (.valueError msg) := by
      unfold generateScenariosAI
      rw [except_bind_ok, hp, except_bind_error]
    unfold generateScenarios
    rw [hai]
    rfl
  · intro loads provider resp data msg d tt mt pr hload hparse
    have hp : parseResponseTests loads resp.content
        = .error (.valueError msg) := by
      unfold parseResponseTests
      rw [hload, except_bind_ok]
      exact hparse
    have hai : generateTestsAI loads provider (.ok resp) d tt mt
        = .error (.valueError msg) := by
      unfold generateTestsAI
      rw [except_bind_ok, hp, except_bind_error]
    unfold generateTests
    rw [hai]
    rfl

theorem C1_structural_error_wrapping_witness :
    generateScenarios (fun _ => .ok (PyJson.obj [])) "openai" true
      (.ok { content := "x", model := "m",
             prompt_tokens := 0, completion_tokens := 0, total_tokens := 0 })
      "Order processing workflow" "comprehensive" 3 true true
      = .error (.wrapped ("Invalid response format: "
          ++ "Expected array or object with \x27scenarios\x27 key"))
    ∧ generateTests (fun _ => .ok (PyJson.arr [PyJson.obj []])) "openai" true
      (.ok { content := "x", model := "m",
             prompt_tokens := 0, completion_tokens := 0, total_tokens := 0 })
      "User login" "all" 5 none
      = .error (.wrapped ("Test generation failed: "
          ++ "Test case missing required field: title")) :=
  ⟨C1_structural_error_wrapping.1 _ "openai" _ (PyJson.obj []) _
      "Order processing workflow" "comprehensive" 3 true true rfl rfl,
    C1_structural_error_wrapping.2 _ "openai" _ (PyJson.arr [PyJson.obj []]) _
      "User login" "all" 5 none rfl rfl⟩

/-- C2: the claim says a scenario carrying a non-empty tag list is
rendered with a space-joined tags line above its heading when
include_tags is true. BDDScenario declares no tags field, so pydantic
discards the tags constructor argument (first conjunct: the constructed
scenario is independent of the tags passed) and hasattr(scenario, "tags")
in _format_gherkin is always false: at the concrete parsed scenario with
tags ["@smoke", "@critical"] and include_tags=true, the Gherkin output
contains no "@smoke" (third conjunct). The repository tests
(test_format_gherkin_with_tags, test_parse_scenario_with_tags,
test_generate_scenarios_mock_includes_tags) assert the opposite, so this
is a bug in the model class, not an intended behaviour. -/
theorem C2_tags_never_rendered :
    (∀ (n : String) (g w t : List String)
        (e : Option (List (List (String × PyJson)))) (tg₁ tg₂ : Option PyJson),
      mkBDDScenario n g w t e tg₁ = mkBDDScenario n g w t e tg₂)
    ∧ parseScenario (PyJson.obj [("name", .str "Test"),
        ("tags", .arr [.str "@smoke", .str "@critical"]),
        ("given", .arr [.str "precondition"]),
        ("when", .arr [.str "action"]),
        ("then", .arr [.str "outcome"])])
      = .ok (mkBDDScenario "Test" ["precondition"] ["action"] ["outcome"]
          none (some (.arr [.str "@smoke", .str "@critical"])))
    ∧ Except.map (fun g => pyContainsSub g "@smoke")
        (formatGherkin "Test Feature" "Test description"
          [mkBDDScenario "Test" ["precondition"] ["action"] ["outcome"]
            none (some (.arr [.str "@smoke", .str "@critical"]))] true)
      = .ok false := by
  exact ⟨fun n g w t e tg₁ tg₂ => rfl, rfl, rfl⟩

/-- C3: the claim says every successful BDDGenerationResponse carries a
metadata block with provider, model and token counts. The model class
declares no metadata field, so pydantic silently drops the metadata
keyword argument both services pass: the assembled response is
independent of the metadata (first conjunct), of the provider name
(second conjunct: the provider reaches the response only through the
dropped metadata), and of the token counts of the LLM reply (third
conjunct). The repository test test_generate_scenarios_includes_metadata
asserts result.metadata is populated, so this is a bug in the model
class, not an intended behaviour. -/
theorem C3_metadata_never_in_response :
    (∀ (fn fd : String) (sc : List BDDScenario) (gh : String)
        (m₁ m₂ : BDDGenMetadata),
      mkBDDGenerationResponse fn fd sc gh m₁
        = mkBDDGenerationResponse fn fd sc gh m₂)
    ∧ (∀ (p₁ p₂ fd : String) (ms : Nat) (ie it : Bool),
      mockResponseBDD p₁ fd ms ie it = mockResponseBDD p₂ fd ms ie it)
    ∧ (∀ (loads : String → Except PyErr PyJson) (p fd fs : String)
        (ms : Nat) (ie it : Bool) (c m : String)
        (pt₁ ct₁ tt₁ pt₂ ct₂ tt₂ : Nat) (fr : Option String),
      generateScenarios loads p true
          (.ok { content := c, model := m, prompt_tokens := pt₁,
                 completion_tokens := ct₁, total_tokens := tt₁,
                 finish_reason := fr }) fd fs ms ie it
        = generateScenarios loads p true
          (.ok { content := c, model := m, prompt_tokens := pt₂,
                 completion_tokens := ct₂, total_tokens := tt₂,
                 finish_reason := fr }) fd fs ms ie it) :=
  ⟨fun _ _ _ _ _ _ => rfl,
    fun _ _ _ _ _ _ => rfl,
    fun _ _ _ _ _ _ _ _ _ _ _ _ _ _ _ _ => rfl⟩

theorem splitOnChar_ne_nil (sep : Char) (l : List Char) :
    splitOnChar sep l ≠ [] := by
  cases l with
  | nil => simp [splitOnChar]
  | cons c cs =>
    simp only [splitOnChar]
    split
    · simp
    · split <;> simp

theorem splitOnChar_no_sep {sep : Char} {t : List Char} (h : sep ∉ t) :
    splitOnChar sep t = [t] := by
  induction t with
  | nil => rfl
  | cons c cs ih =>
    simp only [List.mem_cons, not_or] at h
    simp only [splitOnChar]
    rw [if_neg (fun hc => h.1 hc.symm), ih h.2]

theorem splitOnChar_append_first {sep : Char} {f : List Char}
    (rest : List Char) (h : sep ∉ f) :
    splitOnChar sep (f ++ sep :: rest) = f :: splitOnChar sep rest := by
  induction f with
  | nil => simp [splitOnChar]
  | cons c cs ih =>
    simp only [List.mem_cons, not_or] at h
    simp only [List.cons_append, splitOnChar, List.append_eq]
    rw [if_neg (fun hc => h.1 hc.symm), ih h.2]

theorem splitOnChar_append_last {sep : Char} (x : List Char)
    {t : List Char} (h : sep ∉ t) :
    splitOnChar sep (x ++ sep :: t) = splitOnChar sep x ++ [t] := by
  induction x with
  | nil => simp [splitOnChar, splitOnChar_no_sep h]
  | cons c cs ih =>
    by_cases hc : c = sep
    · subst hc
      simp only [List.cons_append, splitOnChar, List.append_eq, if_pos rfl,
        if_true]
      rw [ih]
    · simp only [List.cons_append, splitOnChar, List.append_eq, if_neg hc]
      rw [ih]
      cases hs : splitOnChar sep cs with
      | nil => exact absurd hs (splitOnChar_ne_nil sep cs)
      | cons seg segs => rfl

theorem joinWithChar_cons_head (sep c : Char) (s : List Char)
    (ss : List (List Char)) :
    joinWithChar sep ((c :: s) :: ss) = c :: joinWithChar sep (s :: ss) := by
  cases ss <;> rfl

theorem joinWithChar_splitOnChar (sep : Char) (l : List Char) :
    joinWithChar sep (splitOnChar sep l) = l := by
  induction l with
  | nil => rfl
  | cons c cs ih =>
    by_cases hc : c = sep
    · subst hc
      simp only [splitOnChar, if_pos rfl]
      cases hs : splitOnChar c cs with
      | nil => exact absurd hs (splitOnChar_ne_nil c cs)
      | cons seg segs =>
        show c :: joinWithChar c (seg :: segs) = c :: cs
        rw [← hs, ih]
    · simp only [splitOnChar, if_neg hc]
      cases hs : splitOnChar sep cs with
      | nil => exact absurd hs (splitOnChar_ne_nil sep cs)
      | cons seg segs =>
        rw [joinWithChar_cons_head]
        rw [← hs, ih]

theorem charStrip_backtick (mid : List Char) :
    charStrip ('`' :: mid ++ ['`']) = '`' :: mid ++ ['`'] := by
  have hsp : pyIsSpace '`' = false := by decide
  unfold charStrip
  rw [show ('`' :: mid ++ ['`']) = '`' :: (mid ++ ['`']) from rfl]
  rw [List.dropWhile_cons, hsp]
  simp only [Bool.false_eq_true, if_false]
  rw [show ('`' :: (mid ++ ['`'])).reverse
      = '`' :: (('`' :: mid).reverse) by simp]
  rw [List.dropWhile_cons, hsp]
  simp

theorem startsWithTicks {f : List Char}
    (h : ("```".data).isPrefixOf f = true) :
    ∃ rest, f = '`' :: '`' :: '`' :: rest := by
  match f with
  | [] => simp [List.isPrefixOf] at h
  | [a] => simp [List.isPrefixOf] at h
  | [a, b] => simp [List.isPrefixOf] at h
  | a :: b :: c :: rest =>
    refine ⟨rest, ?_⟩
    have : ("```".data) = ['`', '`', '`'] := rfl
    rw [this] at h
    simp only [List.isPrefixOf, List.cons_append, Bool.and_eq_true, beq_iff_eq]
      at h
    obtain ⟨ha, hb, hc⟩ :=
      (by simpa [List.isPrefixOf] using h :
        '`' = a ∧ '`' = b ∧ '`' = c)
    subst ha hb hc
    rfl


/-- The fence-stripping step maps a fenced payload (an opening line
starting with a triple backtick, the payload, a closing triple-backtick
line) back to the payload itself. -/
theorem stripCodeFence_fenced (f s : String)
    (hf : pyStartsWith "```" f = true)
    (hfn : ('\n' : Char) ∉ f.data) :
    stripCodeFence (f ++ "\n" ++ s ++ "\n```") = s := by
  obtain ⟨rest, hrest⟩ :=
    startsWithTicks (f := f.data) (by simpa [pyStartsWith] using hf)
  have hdata : (f ++ "\n" ++ s ++ "\n```").data
      = f.data ++ '\n' :: (s.data ++ '\n' :: ['`', '`', '`']) := by
    simp [String.data_append]
  have hcs : charStrip ((f ++ "\n" ++ s ++ "\n```").data)
      = (f ++ "\n" ++ s ++ "\n```").data := by
    rw [hdata, hrest]
    rw [show ('`' :: '`' :: '`' :: rest)
          ++ '\n' :: (s.data ++ '\n' :: ['`', '`', '`'])
        = '`' :: ('`' :: '`' :: rest
          ++ '\n' :: (s.data ++ ['\n', '`', '`'])) ++ ['`'] by simp]
    exact charStrip_backtick _
  have hstrip : pyStrip (f ++ "\n" ++ s ++ "\n```")
      = (f ++ "\n" ++ s ++ "\n```") := by
    unfold pyStrip
    rw [hcs]
  have hstart : pyStartsWith "```" (f ++ "\n" ++ s ++ "\n```") = true := by
    unfold pyStartsWith
    rw [hdata, hrest]
    simp [List.isPrefixOf]
  have hsplit : splitOnChar '\n' ((f ++ "\n" ++ s ++ "\n```").data)
      = f.data :: (splitOnChar '\n' s.data ++ [['`', '`', '`']]) := by
    rw [hdata, splitOnChar_append_first _ hfn,
      splitOnChar_append_last _ (by decide)]
  simp only [stripCodeFence, hstrip, hstart, if_true]
  rw [hsplit]
  simp only [List.drop_succ_cons, List.drop_zero, List.dropLast_concat]
  rw [joinWithChar_splitOnChar]

/-- C7: a fenced payload (a first line starting with a triple backtick
such as a json-tagged fence line, the payload, a closing fence line)
parses exactly as the unfenced payload does, through either service
parser and for every decoder: both reduce to the same text before the
json.loads boundary. The cleanliness hypotheses (no surrounding
whitespace, no leading fence marker) hold for every valid JSON payload as
emitted, whitespace-trimmed; json.loads itself ignores surrounding
whitespace, so nothing is lost by them. -/
theorem C7_fenced_parse_equivalence
    (loads : String → Except PyErr PyJson) (firstLine s : String)
    (hf : pyStartsWith "```" firstLine = true)
    (hfn : ('\n' : Char) ∉ firstLine.data)
    (hclean : pyStrip s = s)
    (hnf : pyStartsWith "```" s = false) :
    parseResponseTests loads (firstLine ++ "\n" ++ s ++ "\n```")
      = parseResponseTests loads s
    ∧ parseResponseBDD loads (firstLine ++ "\n" ++ s ++ "\n```")
      = parseResponseBDD loads s := by
  have h1 : stripCodeFence (firstLine ++ "\n" ++ s ++ "\n```") = s :=
    stripCodeFence_fenced firstLine s hf hfn
  have h2 : stripCodeFence s = s := by
    simp only [stripCodeFence, hclean, hnf]
    rfl
  constructor
  · unfold parseResponseTests
    rw [h1, h2]
  · unfold parseResponseBDD
    rw [h1, h2]

theorem C7_fenced_parse_equivalence_witness :
    (pyStartsWith "```" "```json" = true
      ∧ ('\n' : Char) ∉ "```json".data
      ∧ pyStrip "[]" = "[]"
      ∧ pyStartsWith "```" "[]" = false)
    ∧ parseResponseTests (fun _ => .ok (PyJson.arr []))
        ("```json" ++ "\n" ++ "[]" ++ "\n```")
      = parseResponseTests (fun _ => .ok (PyJson.arr [])) "[]"
    ∧ parseResponseBDD (fun _ => .ok (PyJson.arr []))
        ("```json" ++ "\n" ++ "[]" ++ "\n```")
      = parseResponseBDD (fun _ => .ok (PyJson.arr [])) "[]" :=
  ⟨⟨by decide, by decide, by decide, by decide⟩,
    (C7_fenced_parse_equivalence (fun _ => .ok (PyJson.arr []))
      "```json" "[]" (by decide) (by decide) (by decide) (by decide)).1,
    (C7_fenced_parse_equivalence (fun _ => .ok (PyJson.arr []))
      "```json" "[]" (by decide) (by decide) (by decide) (by decide)).2⟩

theorem any_eq_true_of_lookup {kvs : List (String × PyJson)} {k : String}
    {v : PyJson} (h : kvs.lookup k = some v) :
    (kvs.any fun kv => kv.1 = k) = true := by
  induction kvs with
  | nil => simp [List.lookup] at h
  | cons p rest ih =>
    obtain ⟨k₁, v₁⟩ := p
    by_cases hk : k == k₁
    · simp only [List.any_cons, Bool.or_eq_true, decide_eq_true_eq]
      exact Or.inl (beq_iff_eq.mp hk).symm
    · simp only [List.lookup, hk] at h
      simp only [List.any_cons, Bool.or_eq_true]
      exact Or.inr (ih h)

theorem mkTestStep_ok (n : Int) (a e : String) (h : 1 ≤ n) :
    mkTestStep (.num n) (.str a) (.str e)
      = .ok { step_number := n, action := a, expected_result := e } := by
  simp [mkTestStep, h]

theorem parseStep_wf (i : Nat) (hi : 1 ≤ i) {j : PyJson}
    (hw : wellFormedStepItem j = true) :
    ∃ st, parseStep i j = .ok st := by
  rcases j with _ | b | m | sv | xs | kvs
  · exact Bool.noConfusion hw
  · exact Bool.noConfusion hw
  · exact Bool.noConfusion hw
  · exact Bool.noConfusion hw
  · exact Bool.noConfusion hw
  case obj =>
    simp only [wellFormedStepItem, Bool.and_eq_true] at hw
    obtain ⟨⟨h1, h2⟩, h3⟩ := hw
    obtain ⟨n, hn, hn1⟩ : ∃ n : Int,
        dictGet kvs "step_number" (.num i) = .num n ∧ 1 ≤ n := by
      unfold dictGet
      cases hsn : kvs.lookup "step_number" with
      | none => exact ⟨i, rfl, by exact_mod_cast hi⟩
      | some v =>
        rw [hsn] at h1
        rcases v with _ | b | m | sv | xs | kv
        · exact Bool.noConfusion h1
        · exact Bool.noConfusion h1
        · exact ⟨m, rfl, of_decide_eq_true h1⟩
        · exact Bool.noConfusion h1
        · exact Bool.noConfusion h1
        · exact Bool.noConfusion h1
    obtain ⟨a, ha⟩ : ∃ a, dictGet kvs "action" (.str "") = .str a := by
      unfold dictGet
      cases hsa : kvs.lookup "action" with
      | none => exact ⟨"", rfl⟩
      | some v =>
        rw [hsa] at h2
        rcases v with _ | b | m | sv | xs | kv
        · exact Bool.noConfusion h2
        · exact Bool.noConfusion h2
        · exact Bool.noConfusion h2
        · exact ⟨sv, rfl⟩
        · exact Bool.noConfusion h2
        · exact Bool.noConfusion h2
    obtain ⟨e, he⟩ : ∃ e, dictGet kvs "expected_result" (.str "") = .str e := by
      unfold dictGet
      cases hse : kvs.lookup "expected_result" with
      | none => exact ⟨"", rfl⟩
      | some v =>
        rw [hse] at h3
        rcases v with _ | b | m | sv | xs | kv
        · exact Bool.noConfusion h3
        · exact Bool.noConfusion h3
        · exact Bool.noConfusion h3
        · exact ⟨sv, rfl⟩
        · exact Bool.noConfusion h3
        · exact Bool.noConfusion h3
    refine ⟨{ step_number := n, action := a, expected_result := e }, ?_⟩
    show mkTestStep (dictGet kvs "step_number" (.num i))
      (dictGet kvs "action" (.str ""))
      (dictGet kvs "expected_result" (.str "")) = _
    rw [hn, ha, he]
    exact mkTestStep_ok n a e hn1

theorem parseStepsFrom_wf (xs : List PyJson) :
    ∀ i : Nat, 1 ≤ i → (∀ j ∈ xs, wellFormedStepItem j = true) →
    ∃ ts, parseStepsFrom i xs = .ok ts := by
  induction xs with
  | nil => exact fun i _ _ => ⟨[], rfl⟩
  | cons j rest ih =>
    intro i hi hw
    obtain ⟨st, hst⟩ := parseStep_wf i hi (hw j (by simp))
    obtain ⟨ts, hts⟩ := ih (i + 1) (by omega) (fun x hx => hw x (by simp [hx]))
    refine ⟨st :: ts, ?_⟩
    show (do
      let step ← parseStep i j
      let steps ← parseStepsFrom (i + 1) rest
      pure (step :: steps) : Except PyErr (List TestStep)) = _
    rw [hst, except_bind_ok, hts, except_bind_ok]
    rfl

theorem mkGeneratedTestCase_ok (s : String) (pre : Option PyJson)
    (hpre : pre = none ∨ pre = some .null ∨ ∃ ps, pre = some (.str ps))
    (steps : List TestStep) (e : String) (pr tt : String) :
    ∃ tc, mkGeneratedTestCase (.str s) pre steps (.str e) pr tt = .ok tc
      ∧ tc.title = s := by
  rcases hpre with h | h | ⟨ps, h⟩ <;> subst h
  · exact ⟨_, rfl, rfl⟩
  · exact ⟨_, rfl, rfl⟩
  · exact ⟨_, rfl, rfl⟩

theorem parseTestCase_wf {j : PyJson} (hw : wellFormedTestCaseItem j = true) :
    ∃ tc, parseTestCase j = .ok tc ∧ tc.title = titleOf j := by
  rcases j with _ | b | m | sv | xs | kvs
  · exact Bool.noConfusion hw
  · exact Bool.noConfusion hw
  · exact Bool.noConfusion hw
  · exact Bool.noConfusion hw
  · exact Bool.noConfusion hw
  case obj =>
    simp only [wellFormedTestCaseItem, Bool.and_eq_true] at hw
    obtain ⟨⟨⟨h1, h2⟩, h3⟩, h4⟩ := hw
    obtain ⟨ts, hts⟩ : ∃ s, kvs.lookup "title" = some (.str s) := by
      cases ht : kvs.lookup "title" with
      | none => rw [ht] at h1; exact Bool.noConfusion h1
      | some v =>
        rw [ht] at h1
        rcases v with _ | b | m | sv | xs | kv
        · exact Bool.noConfusion h1
        · exact Bool.noConfusion h1
        · exact Bool.noConfusion h1
        · exact ⟨sv, rfl⟩
        · exact Bool.noConfusion h1
        · exact Bool.noConfusion h1
    have hany := any_eq_true_of_lookup hts
    obtain ⟨sx, hsx, hsxw⟩ : ∃ sx, dictGet kvs "steps" (.arr []) = .arr sx
        ∧ ∀ x ∈ sx, wellFormedStepItem x = true := by
      unfold dictGet
      cases hs : kvs.lookup "steps" with
      | none => exact ⟨[], rfl, by simp⟩
      | some v =>
        rw [hs] at h2
        rcases v with _ | b | m | sv | xs | kv
        · exact Bool.noConfusion h2
        · exact Bool.noConfusion h2
        · exact Bool.noConfusion h2
        · exact Bool.noConfusion h2
        · exact ⟨xs, rfl, by simpa using h2⟩
        · exact Bool.noConfusion h2
    obtain ⟨stps, hstps⟩ := parseStepsFrom_wf sx 1 le_rfl hsxw
    obtain ⟨er, her⟩ :
        ∃ er, dictGet kvs "expected_result" (.str "") = .str er := by
      unfold dictGet
      cases hse : kvs.lookup "expected_result" with
      | none => exact ⟨"", rfl⟩
      | some v =>
        rw [hse] at h4
        rcases v with _ | b | m | sv | xs | kv
        · exact Bool.noConfusion h4
        · exact Bool.noConfusion h4
        · exact Bool.noConfusion h4
        · exact ⟨sv, rfl⟩
        · exact Bool.noConfusion h4
        · exact Bool.noConfusion h4
    have hpre : dictGetOpt kvs "preconditions" = none
        ∨ dictGetOpt kvs "preconditions" = some .null
        ∨ ∃ ps, dictGetOpt kvs "preconditions" = some (.str ps) := by
      unfold dictGetOpt
      cases hp : kvs.lookup "preconditions" with
      | none => exact Or.inl rfl
      | some v =>
        rw [hp] at h3
        rcases v with _ | b | m | sv | xs | kv
        · exact Or.inr (Or.inl rfl)
        · exact Bool.noConfusion h3
        · exact Bool.noConfusion h3
        · exact Or.inr (Or.inr ⟨sv, rfl⟩)
        · exact Bool.noConfusion h3
        · exact Bool.noConfusion h3
    have htitle : dictGet kvs "title" .null = .str ts := by
      unfold dictGet
      rw [hts]
    obtain ⟨tc, htc, htcTitle⟩ :=
      mkGeneratedTestCase_ok ts (dictGetOpt kvs "preconditions") hpre stps er
        (normalizePriority (dictGet kvs "priority" (.str "medium")))
        (normalizeTestType (dictGet kvs "test_type" (.str "functional")))
    have hTitleOf : titleOf (PyJson.obj kvs) = ts := by
      show (match kvs.lookup "title" with
        | some (.str s) => s
        | _ => "") = ts
      rw [hts]
    refine ⟨tc, ?_, by rw [htcTitle, hTitleOf]⟩
    simp only [parseTestCase, pyContainsKey, except_bind_ok]
    rw [hany]
    simp only [Bool.not_true, Bool.false_eq_true, if_false]
    rw [hsx]
    simp only [pyIter, except_bind_ok]
    rw [hstps]
    simp only [except_bind_ok]
    rw [htitle, her]
    exact htc

theorem mapMExcept_parseTestCase_wf {items : List PyJson}
    (h : ∀ j ∈ items, wellFormedTestCaseItem j = true) :
    ∃ tcs, mapMExcept parseTestCase items = .ok tcs
      ∧ tcs.length = items.length
      ∧ tcs.map GeneratedTestCase.title = items.map titleOf := by
  induction items with
  | nil => exact ⟨[], rfl, rfl, rfl⟩
  | cons j rest ih =>
    obtain ⟨tc, htc, htitle⟩ := parseTestCase_wf (h j (by simp))
    obtain ⟨tcs, htcs, hlen, htit⟩ := ih (fun x hx => h x (by simp [hx]))
    refine ⟨tc :: tcs, ?_, by simp [hlen], by simp [htit, htitle]⟩
    show (do
      let b ← parseTestCase j
      let bs ← mapMExcept parseTestCase rest
      pure (b :: bs) : Except PyErr (List GeneratedTestCase)) = _
    rw [htc, except_bind_ok, htcs, except_bind_ok]
    rfl

/-- C6: a decoded JSON array of N well-formed test-case items (each an
object with a title and fields already in the accepted shapes) is parsed
by TestGenerator._parse_response into exactly N GeneratedTestCase
objects, in order, with every title preserved verbatim; json.loads is the
standard-library boundary, abstracted by the loads argument. -/
theorem C6_parse_roundtrip (loads : String → Except PyErr PyJson)
    (content : String) (items : List PyJson)
    (hload : loads (stripCodeFence content) = .ok (.arr items))
    (hw : ∀ j ∈ items, wellFormedTestCaseItem j = true) :
    ∃ tcs, parseResponseTests loads content = .ok tcs
      ∧ tcs.length = items.length
      ∧ tcs.map GeneratedTestCase.title = items.map titleOf := by
  obtain ⟨tcs, h1, h2, h3⟩ := mapMExcept_parseTestCase_wf hw
  refine ⟨tcs, ?_, h2, h3⟩
  unfold parseResponseTests
  rw [hload, except_bind_ok]
  unfold parseResponseTestsDecoded
  simpa using h1

theorem C6_parse_roundtrip_witness :
    ∃ tcs, parseResponseTests
        (fun _ => .ok (.arr [PyJson.obj [("title", PyJson.str "Login works")],
          PyJson.obj [("title", PyJson.str "Cart updates"),
            ("steps", PyJson.arr [PyJson.obj [("action", PyJson.str "add item")]]),
            ("priority", PyJson.str "weird")]]))
        "irrelevant"
      = .ok tcs
      ∧ tcs.length
        = [PyJson.obj [("title", PyJson.str "Login works")],
          PyJson.obj [("title", PyJson.str "Cart updates"),
            ("steps", PyJson.arr [PyJson.obj [("action", PyJson.str "add item")]]),
            ("priority", PyJson.str "weird")]].length
      ∧ tcs.map GeneratedTestCase.title
        = [PyJson.obj [("title", PyJson.str "Login works")],
          PyJson.obj [("title", PyJson.str "Cart updates"),
            ("steps", PyJson.arr [PyJson.obj [("action", PyJson.str "add item")]]),
            ("priority", PyJson.str "weird")]].map titleOf :=
  C6_parse_roundtrip _ "irrelevant" _ rfl (by decide)

/-- C8: with test_type all (no filter applies) and a parsed list of size
m greater than the requested max_tests k, generate_tests returns exactly
the first k parsed test cases in source order. -/
theorem C8_truncation (loads : String → Except PyErr PyJson)
    (provider : String) (resp : LLMResponse)
    (tcs : List GeneratedTestCase) (k : Nat)
    (hparse : parseResponseTests loads resp.content = .ok tcs)
    (hk : k < tcs.length) (description : String) (priority : Option String) :
    ∃ r, generateTests loads provider true (.ok resp) description "all" k
        priority = .ok r
      ∧ r.test_cases = tcs.take k
      ∧ r.test_cases.length = k := by
  have hai : generateTestsAI loads provider (.ok resp) description "all" k
      = .ok { test_cases := tcs.take k
              metadata := { provider := provider
                            model := resp.model
                            test_type := "all"
                            description_length := pyLen description
                            prompt_tokens := resp.prompt_tokens
                            completion_tokens := resp.completion_tokens
                            total_tokens := resp.total_tokens } } := by
    unfold generateTestsAI
    rw [except_bind_ok, hparse, except_bind_ok]
    rfl
  refine ⟨{ test_cases := tcs.take k
            metadata := { provider := provider
                          model := resp.model
                          test_type := "all"
                          description_length := pyLen description
                          prompt_tokens := resp.prompt_tokens
                          completion_tokens := resp.completion_tokens
                          total_tokens := resp.total_tokens } }, ?_, rfl, ?_⟩
  · unfold generateTests
    rw [hai]
    rfl
  · show (tcs.take k).length = k
    rw [List.length_take]
    omega

theorem C8_truncation_witness :
    ∃ r, generateTests
        (fun _ => .ok (.arr [PyJson.obj [("title", PyJson.str "first")],
          PyJson.obj [("title", PyJson.str "second")]]))
        "openai" true
        (.ok { content := "x", model := "m",
               prompt_tokens := 0, completion_tokens := 0, total_tokens := 0 })
        "Shopping cart" "all" 1 none
      = .ok r
      ∧ r.test_cases
        = [{ title := "first", preconditions := none, steps := [],
             expected_result := "", priority := "medium",
             test_type := "functional" },
           { title := "second", preconditions := none, steps := [],
             expected_result := "", priority := "medium",
             test_type := "functional" }].take 1
      ∧ r.test_cases.length = 1 :=
  C8_truncation
    (fun _ => .ok (.arr [PyJson.obj [("title", PyJson.str "first")],
      PyJson.obj [("title", PyJson.str "second")]]))
    "openai"
    { content := "x", model := "m",
      prompt_tokens := 0, completion_tokens := 0, total_tokens := 0 }
    [{ title := "first", preconditions := none, steps := [],
       expected_result := "", priority := "medium",
       test_type := "functional" },
     { title := "second", preconditions := none, steps := [],
       expected_result := "", priority := "medium",
       test_type := "functional" }]
    1 rfl (by decide) "Shopping cart" none

theorem mockTests_ne_nil (d tt : String) (mt : Nat) (pr : Option String)
    (htt : tt = "functional" ∨ tt = "edge_case" ∨ tt = "negative"
      ∨ tt = "all")
    (hmt : 1 ≤ mt) : mockTests d tt mt pr ≠ [] := by
  have h0 : 0 < mt := hmt
  rcases htt with h | h | h | h <;> subst h <;>
    simp only [mockTests, List.length_nil] <;>
    split_ifs <;> simp_all

theorem mockScenariosBDD_ne_nil (ms : Nat) (ie it : Bool) (hms : 1 ≤ ms) :
    mockScenariosBDD ms ie it ≠ [] := by
  have h0 : 0 < ms := hms
  simp only [mockScenariosBDD, List.length_nil]
  split_ifs <;> simp_all

theorem mockScenariosBDD_ge3 (m : Nat) (ie it : Bool) :
    mockScenariosBDD (m + 3) ie it = mockScenariosBDD 3 ie it := by
  simp only [mockScenariosBDD]
  norm_num

/-- C9: with use_ai false, both services return before the try block with
deterministic mock output: the result is independent of the decoder and
of the vendor call outcome (no client or network interaction, first and
third conjuncts; determinism over identical inputs is definitional, the
embedded services being pure functions of their arguments), never an
error, and non-empty for every valid request (a schema test_type and a
requested maximum of at least one, second and fourth conjuncts). -/
theorem C9_mock_contract :
    (∀ (loads₁ loads₂ : String → Except PyErr PyJson)
        (llm₁ llm₂ : Except PyErr LLMResponse) (provider d tt : String)
        (mt : Nat) (pr : Option String),
      generateTests loads₁ provider false llm₁ d tt mt pr
        = generateTests loads₂ provider false llm₂ d tt mt pr)
    ∧ (∀ (loads : String → Except PyErr PyJson)
        (llm : Except PyErr LLMResponse) (provider d tt : String)
        (mt : Nat) (pr : Option String),
      tt = "functional" ∨ tt = "edge_case" ∨ tt = "negative" ∨ tt = "all" →
      1 ≤ mt →
      ∃ r, generateTests loads provider false llm d tt mt pr = .ok r
        ∧ r.test_cases ≠ [])
    ∧ (∀ (loads₁ loads₂ : String → Except PyErr PyJson)
        (llm₁ llm₂ : Except PyErr LLMResponse) (provider fd fs : String)
        (ms : Nat) (ie it : Bool),
      generateScenarios loads₁ provider false llm₁ fd fs ms ie it
        = generateScenarios loads₂ provider false llm₂ fd fs ms ie it)
    ∧ (∀ (loads : String → Except PyErr PyJson)
        (llm : Except PyErr LLMResponse) (provider fd fs : String)
        (ms : Nat) (ie it : Bool),
      1 ≤ ms →
      ∃ r, generateScenarios loads provider false llm fd fs ms ie it = .ok r
        ∧ r.scenarios ≠ []) := by
  refine ⟨fun _ _ _ _ _ _ _ _ _ => rfl, ?_,
    fun _ _ _ _ _ _ _ _ _ _ => rfl, ?_⟩
  · intro loads llm provider d tt mt pr htt hmt
    exact ⟨mockResponseTests provider d tt mt pr, rfl,
      mockTests_ne_nil d tt mt pr htt hmt⟩
  · intro loads llm provider fd fs ms ie it hms
    have hne := mockScenariosBDD_ne_nil ms ie it hms
    obtain ⟨m, rfl⟩ : ∃ m, ms = m + 1 := ⟨ms - 1, by omega⟩
    rcases m with _ | _ | m
    · cases ie <;> cases it <;> exact ⟨_, rfl, hne⟩
    · cases ie <;> cases it <;> exact ⟨_, rfl, hne⟩
    · have em : m + 1 + 1 + 1 = m + 3 := by omega
      rw [em] at hne ⊢
      have e1 := mockScenariosBDD_ge3 m ie it
      rw [e1] at hne
      have e2 : mockResponseBDD provider fd (m + 3) ie it
          = mockResponseBDD provider fd 3 ie it := by
        unfold mockResponseBDD
        rw [e1]
      cases ie <;> cases it
      · obtain ⟨r, hr, hrs⟩ :
            ∃ r, mockResponseBDD provider fd 3 false false = .ok r
              ∧ r.scenarios = mockScenariosBDD 3 false false := ⟨_, rfl, rfl⟩
        refine ⟨r, ?_, ?_⟩
        · unfold generateScenarios
          rw [e2, hr]
          rfl
        · rw [hrs]
          exact hne
      · obtain ⟨r, hr, hrs⟩ :
            ∃ r, mockResponseBDD provider fd 3 false true = .ok r
              ∧ r.scenarios = mockScenariosBDD 3 false true := ⟨_, rfl, rfl⟩
        refine ⟨r, ?_, ?_⟩
        · unfold generateScenarios
          rw [e2, hr]
          rfl
        · rw [hrs]
          exact hne
      · obtain ⟨r, hr, hrs⟩ :
            ∃ r, mockResponseBDD provider fd 3 true false = .ok r
              ∧ r.scenarios = mockScenariosBDD 3 true false := ⟨_, rfl, rfl⟩
        refine ⟨r, ?_, ?_⟩
        · unfold generateScenarios
          rw [e2, hr]
          rfl
        · rw [hrs]
          exact hne
      · obtain ⟨r, hr, hrs⟩ :
            ∃ r, mockResponseBDD provider fd 3 true true = .ok r
              ∧ r.scenarios = mockScenariosBDD 3 true true := ⟨_, rfl, rfl⟩
        refine ⟨r, ?_, ?_⟩
        · unfold generateScenarios
          rw [e2, hr]
          rfl
        · rw [hrs]
          exact hne

theorem C9_mock_contract_witness :
    generateTests (fun _ => .ok PyJson.null) "openai" false
        (.error (.llmClientError "offline"))
        "User login with email and password authentication" "all" 3 none
      = generateTests (fun _ => .ok (PyJson.str "other")) "openai" false
        (.ok { content := "", model := "", prompt_tokens := 0,
               completion_tokens := 0, total_tokens := 0 })
        "User login with email and password authentication" "all" 3 none
    ∧ (∃ r, generateTests (fun _ => .ok PyJson.null) "openai" false
        (.error (.llmClientError "offline"))
        "User login with email and password authentication" "all" 3 none
      = .ok r ∧ r.test_cases ≠ [])
    ∧ generateScenarios (fun _ => .ok PyJson.null) "openai" false
        (.error (.llmClientError "offline"))
        "Order processing workflow" "comprehensive" 3 true true
      = generateScenarios (fun _ => .ok (PyJson.str "other")) "openai" false
        (.ok { content := "", model := "", prompt_tokens := 0,
               completion_tokens := 0, total_tokens := 0 })
        "Order processing workflow" "comprehensive" 3 true true
    ∧ (∃ r, generateScenarios (fun _ => .ok PyJson.null) "openai" false
        (.error (.llmClientError "offline"))
        "Order processing workflow" "comprehensive" 3 true true
      = .ok r ∧ r.scenarios ≠ []) :=
  ⟨C9_mock_contract.1 _ _ _ _ _ _ _ _ _,
    C9_mock_contract.2.1 _ _ _ _ _ _ _
      (Or.inr (Or.inr (Or.inr rfl))) (by decide),
    C9_mock_contract.2.2.1 _ _ _ _ _ _ _ _ _ _,
    C9_mock_contract.2.2.2 _ _ _ _ _ _ _ _ (by decide)⟩
